import Mathlib

/-!
Verification of the movie-discovery client's core: the local persistence
store (`src/services/idb.ts`, here `Idb`) and the resilient API client
(`src/api/apiClient.ts`, here `Api`), plus the page-level bulk reset
(`src/pages/Settings.tsx`).

The embedding is shallow: IndexedDB object stores become association lists,
`Date.now()` becomes an explicit `now : Nat` argument, and each `async`
helper becomes a pure state-passing function.  JSON payloads are modelled by
an inductive `Json` type together with JavaScript truthiness, because the
client's cache-hit test `if (cached)` is a truthiness test on the payload.
-/

namespace Idb

/-- A JSON value, as produced by `response.json()` and stored in the cache
and analytics stores. -/
inductive Json where
  | null : Json
  | bool : Bool → Json
  | num : Int → Json
  | str : String → Json
  | arr : List Json → Json
  | obj : List (String × Json) → Json

/-- JavaScript truthiness of a JSON value (`if (cached)` in `get`, and
`errorData.status_message || ...`).  Objects and arrays are always truthy;
`null`, `false`, `0` and `""` are falsy. -/
def Json.truthy : Json → Bool
  | .null => false
  | .bool b => b
  | .num n => n != 0
  | .str s => s != ""
  | .arr _ => true
  | .obj _ => true

/-- A record of the `favorites` store (keyPath `id`). -/
structure FavoriteMovie where
  id : Nat
  title : String
  overview : String
  poster_path : String
  release_date : String
  vote_average : Int
  savedAt : Nat
deriving DecidableEq, Repr

/-- A record of the `search-history` store (keyPath `query`). -/
structure SearchEntry where
  query : String
  timestamp : Nat
deriving DecidableEq, Repr

/-- A record of the `api-cache` store (keyPath `key`). -/
structure CacheEntry where
  key : String
  data : Json
  timestamp : Nat
  ttl : Nat

/-- A record of the `analytics` store (auto-incremented key; the sequence
number is the list position). -/
structure AnalyticsEvent where
  action : String
  data : Json
  timestamp : Nat

/-- The five object stores of `movie-discovery-db`, each as the list of its
records in insertion order. -/
structure DBState where
  favorites : List FavoriteMovie
  searchHistory : List SearchEntry
  apiCache : List CacheEntry
  preferences : List (String × Json)
  analytics : List AnalyticsEvent

def DBState.empty : DBState := ⟨[], [], [], [], []⟩

/-- `dbHelpers.addFavorite`: `db.add('favorites', movie)`.  IndexedDB `add`
rejects when a record with the same key (keyPath `id`) already exists and
leaves the store unchanged; otherwise it inserts the record. -/
def addFavorite (db : DBState) (movie : FavoriteMovie) : Except Unit DBState :=
  if db.favorites.any (fun f => f.id == movie.id) then
    .error ()
  else
    .ok { db with favorites := db.favorites ++ [movie] }

/-- `dbHelpers.removeFavorite`: `db.delete('favorites', id)`. -/
def removeFavorite (db : DBState) (id : Nat) : DBState :=
  { db with favorites := db.favorites.filter (fun f => f.id != id) }

/-- `dbHelpers.getFavorites`: `db.getAll('favorites')`. -/
def getFavorites (db : DBState) : List FavoriteMovie :=
  db.favorites

/-- `dbHelpers.isFavorite`: `!!(await db.get('favorites', id))`. -/
def isFavorite (db : DBState) (id : Nat) : Bool :=
  db.favorites.any (fun f => f.id == id)

/-- `dbHelpers.addToSearchHistory`: `db.put('search-history', {query,
timestamp: Date.now()})`.  `put` upserts by the key path `query`: it
replaces an existing record with the same query, else appends. -/
def addToSearchHistory (db : DBState) (query : String) (now : Nat) : DBState :=
  let e : SearchEntry := ⟨query, now⟩
  if db.searchHistory.any (fun x => x.query == query) then
    { db with searchHistory :=
        db.searchHistory.map (fun x => if x.query == query then e else x) }
  else
    { db with searchHistory := db.searchHistory ++ [e] }

/-- Insert into a list that is sorted by descending timestamp. -/
def insertDesc (e : SearchEntry) : List SearchEntry → List SearchEntry
  | [] => [e]
  | x :: xs => if x.timestamp ≤ e.timestamp then e :: x :: xs else x :: insertDesc e xs

/-- The `.sort((a, b) => b.timestamp - a.timestamp)` step of
`getSearchHistory`: sort by descending timestamp. -/
def sortByTimestampDesc (l : List SearchEntry) : List SearchEntry :=
  l.foldr insertDesc []

/-- `dbHelpers.getSearchHistory`: read all entries, sort by descending
timestamp, take the first `limit`. -/
def getSearchHistory (db : DBState) (limit : Nat) : List SearchEntry :=
  (sortByTimestampDesc db.searchHistory).take limit

/-- First cache record with the given key (`db.get('api-cache', key)`). -/
def findCache (cache : List CacheEntry) (key : String) : Option CacheEntry :=
  cache.find? (fun c => c.key == key)

/-- `dbHelpers.cacheAPIResponse`: `db.put('api-cache', {key, data,
timestamp: Date.now(), ttl: ttlMinutes * 60 * 1000})`, an upsert by `key`. -/
def cacheAPIResponse (db : DBState) (key : String) (data : Json) (now : Nat)
    (ttlMinutes : Nat := 10) : DBState :=
  let e : CacheEntry := ⟨key, data, now, ttlMinutes * 60 * 1000⟩
  if db.apiCache.any (fun c => c.key == key) then
    { db with apiCache := db.apiCache.map (fun c => if c.key == key then e else c) }
  else
    { db with apiCache := db.apiCache ++ [e] }

/-- `dbHelpers.getCachedResponse`: fetch the record for `key`; absent gives
`none`; if `now - timestamp > ttl` the record is deleted and the read gives
`none`; otherwise the stored payload is returned and the store untouched.
(JavaScript `Date.now() - cached.timestamp` can be negative, in which case
the `> ttl` test is false; truncated `Nat` subtraction gives the same
branch.)  Returns the read result together with the updated state. -/
def getCachedResponse (db : DBState) (key : String) (now : Nat) :
    Option Json × DBState :=
  match findCache db.apiCache key with
  | none => (none, db)
  | some cached =>
    if now - cached.timestamp > cached.ttl then
      (none, { db with apiCache := db.apiCache.filter (fun c => c.key != key) })
    else
      (some cached.data, db)

/-- `dbHelpers.setPreference`: `db.put('preferences', value, key)`. -/
def setPreference (db : DBState) (key : String) (value : Json) : DBState :=
  if db.preferences.any (fun p => p.1 == key) then
    { db with preferences :=
        db.preferences.map (fun p => if p.1 == key then (key, value) else p) }
  else
    { db with preferences := db.preferences ++ [(key, value)] }

/-- `dbHelpers.trackEvent`: `db.add('analytics', {action, data, timestamp:
Date.now()})` with an auto-increment key, i.e. an append. -/
def trackEvent (db : DBState) (action : String) (data : Json) (now : Nat) : DBState :=
  { db with analytics := db.analytics ++ [⟨action, data, now⟩] }

end Idb

namespace Api

/-- The `APIError` shape thrown by `APIClient.get` on a non-2xx response or
a network failure. -/
structure APIError where
  message : String
  status : Option Nat
  isNetworkError : Option Bool
deriving DecidableEq, Repr

/-- A thrown JavaScript error value as the client's catch blocks observe
it: its `message`, whether it is an `instanceof Error`, whether it is an
`instanceof TypeError`, and whether it is an `Error` named `'AbortError'`
(the 10 s timeout abort). -/
structure JsError where
  message : String
  isError : Bool
  isTypeErr : Bool
  isAbort : Bool
deriving DecidableEq, Repr

/-- How a `get` call can reject: with an `APIError` object, with a raw
thrown `Error` rethrown as-is (timeout, non-network transport failure,
JSON parse failure), or with a storage error escaping from one of the
awaited `dbHelpers` calls (the analytics `add` is awaited inside `get`, so
its rejection propagates). -/
inductive GetFailure where
  | api : APIError → GetFailure
  | err : JsError → GetFailure
  | storage : GetFailure

/-- One resolved network response: HTTP status, the parsed `Retry-After`
header in seconds (when present on a 429), and the JSON body that
`response.json()` parses to.  A response whose body does not parse is the
separate attempt outcome `NetAttempt.badJson`. -/
structure NetResponse where
  status : Nat
  retryAfter : Option Nat
  body : Idb.Json

/-- `response.ok`: status in the range 200–299. -/
def NetResponse.respOk (r : NetResponse) : Bool :=
  200 ≤ r.status && r.status < 300

/-- The outcome of one `fetch` attempt: the fetch resolves with a response
whose `response.json()` parses (`response`); it resolves with a response
(this status and `Retry-After` header) whose `response.json()` rejects
with a parse `Error` carrying the given message (`badJson`); or the fetch
itself rejects with a thrown error — a transport failure or the abort of
the 10 s timeout (`thrown`). -/
inductive NetAttempt where
  | response : NetResponse → NetAttempt
  | badJson : Nat → Option Nat → String → NetAttempt
  | thrown : JsError → NetAttempt

/-- A response-only network trace: every attempt resolves with a response
whose body parses. -/
def netOfResponses (responses : Nat → NetResponse) : Nat → NetAttempt :=
  fun i => .response (responses i)

/-- `APIClient.isNetworkError` on a thrown JavaScript error:
`error instanceof TypeError || error.message === 'Failed to fetch' ||
error.message === 'Network request failed'`. -/
def isNetworkErrorJs (e : JsError) : Bool :=
  e.isTypeErr || e.message == "Failed to fetch" || e.message == "Network request failed"

/-- What `fetchWithRetry` settles with: a returned response whose body
parses (`resp`), a returned response (this status) whose `response.json()`
will reject with the given message (`respBadJson`), or a thrown error
(`err`). -/
inductive FetchOutcome where
  | resp : NetResponse → FetchOutcome
  | respBadJson : Nat → String → FetchOutcome
  | err : JsError → FetchOutcome

/-- Result of `fetchWithRetry`: the settled outcome, the total number of
attempts, and the list of waits (ms) inserted before each retry. -/
structure FetchResult where
  outcome : FetchOutcome
  attempts : Nat
  waits : List Nat

/-- `APIClient.fetchWithRetry(url, options, retries)`.  The network is a
function from attempt index to attempt outcome.  On a resolved response:
429 with budget left waits `Retry-After * 1000` ms (default 1000) and
recurses; status ≥ 500 with budget left waits `2 ^ (3 - retries) * 1000`
ms (the literal 3 of the source) and recurses; otherwise the response is
returned.  On a thrown error: an `AbortError` becomes
`new Error('Request timeout')` immediately (never retried); a
network-classified error with budget left gets the same exponential
backoff and a retry; anything else is rethrown as-is. -/
def fetchWithRetry (net : Nat → NetAttempt) : Nat → Nat → FetchResult
  | attemptIdx, 0 =>
    match net attemptIdx with
    | .response r => ⟨.resp r, 1, []⟩
    | .badJson status _ msg => ⟨.respBadJson status msg, 1, []⟩
    | .thrown e =>
      if e.isAbort then ⟨.err ⟨"Request timeout", true, false, false⟩, 1, []⟩
      else ⟨.err e, 1, []⟩
  | attemptIdx, retries+1 =>
    match net attemptIdx with
    | .response r =>
      if r.status == 429 then
        let waitTime := match r.retryAfter with
          | some s => s * 1000
          | none => 1000
        let rest := fetchWithRetry net (attemptIdx + 1) retries
        ⟨rest.outcome, rest.attempts + 1, waitTime :: rest.waits⟩
      else if 500 ≤ r.status then
        let waitTime := 2 ^ (3 - (retries + 1)) * 1000
        let rest := fetchWithRetry net (attemptIdx + 1) retries
        ⟨rest.outcome, rest.attempts + 1, waitTime :: rest.waits⟩
      else
        ⟨.resp r, 1, []⟩
    | .badJson status retryAfter msg =>
      if status == 429 then
        let waitTime := match retryAfter with
          | some s => s * 1000
          | none => 1000
        let rest := fetchWithRetry net (attemptIdx + 1) retries
        ⟨rest.outcome, rest.attempts + 1, waitTime :: rest.waits⟩
      else if 500 ≤ status then
        let waitTime := 2 ^ (3 - (retries + 1)) * 1000
        let rest := fetchWithRetry net (attemptIdx + 1) retries
        ⟨rest.outcome, rest.attempts + 1, waitTime :: rest.waits⟩
      else
        ⟨.respBadJson status msg, 1, []⟩
    | .thrown e =>
      if e.isAbort then ⟨.err ⟨"Request timeout", true, false, false⟩, 1, []⟩
      else if isNetworkErrorJs e then
        let waitTime := 2 ^ (3 - (retries + 1)) * 1000
        let rest := fetchWithRetry net (attemptIdx + 1) retries
        ⟨rest.outcome, rest.attempts + 1, waitTime :: rest.waits⟩
      else
        ⟨.err e, 1, []⟩

/-- The expanded query string `urlParams.toString()`: the injected
`api_key` first, then the caller's parameters in their given insertion
order, joined as `name=value` pairs with `&`.  `URLSearchParams` does not
sort.  (Percent-encoding is omitted; the keys and values in the claims use
only unreserved characters, on which encoding is the identity.) -/
def expandedQuery (apiKey : String) (params : List (String × String)) : String :=
  String.intercalate "&" ((("api_key", apiKey) :: params).map (fun p => p.1 ++ "=" ++ p.2))

/-- The cache key of `get`:
`` `GET:${endpoint}:${urlParams.toString()}` ``. -/
def cacheKey (apiKey endpoint : String) (params : List (String × String)) : String :=
  "GET:" ++ endpoint ++ ":" ++ expandedQuery apiKey params

/-- `errorData.status_message || 'HTTP ' + status`: the thrown message is
the body's `status_message` field when that is a truthy string (TMDB sends
strings here), else `"HTTP <status>"`. -/
def statusMessage (body : Idb.Json) (status : Nat) : String :=
  match body with
  | .obj fields =>
    match fields.find? (fun p => p.1 == "status_message") with
    | some (_, Idb.Json.str s) => if s != "" then s else "HTTP " ++ toString status
    | _ => "HTTP " ++ toString status
  | _ => "HTTP " ++ toString status

/-- `APIClient.isNetworkError` on a thrown plain object (never a
`TypeError`): true exactly when its message is one of the two transport
failure strings. -/
def isNetworkErrorMessage (msg : String) : Bool :=
  msg == "Failed to fetch" || msg == "Network request failed"

/-- The outcome of one `get` call: its settled result, the database state
afterwards, and the number of network attempts and backoff waits made. -/
structure GetResult where
  result : Except GetFailure Idb.Json
  db : Idb.DBState
  attempts : Nat
  waits : List Nat

/-- The catch block of `get` applied to a thrown JavaScript error: record
an `api_error` usage event whose `error` field is
`error instanceof Error ? error.message : 'Unknown error'`; then, when
`isNetworkError(error)` holds, reject with the generic NetworkError
object, else rethrow the error as-is.  `trackOk` says whether analytics
`add`s succeed; when they fail, the awaited `trackEvent` rejection itself
propagates, so the call rejects with the storage error. -/
def catchBlockJs (endpoint : String) (db1 : Idb.DBState) (now : Nat)
    (trackOk : Bool) (e : JsError) (attempts : Nat) (waits : List Nat) : GetResult :=
  if trackOk then
    let db2 := Idb.trackEvent db1 "api_error"
      (.obj [("endpoint", .str endpoint),
             ("error", .str (if e.isError then e.message else "Unknown error"))]) now
    if isNetworkErrorJs e then
      { result := .error (.api ⟨"Network error. Please check your connection.",
          none, some true⟩), db := db2, attempts := attempts, waits := waits }
    else
      { result := .error (.err e), db := db2, attempts := attempts, waits := waits }
  else
    { result := .error .storage, db := db1, attempts := attempts, waits := waits }

/-- The catch block of `get` applied to the client's own thrown `APIError`
object (a plain object literal, not an `instanceof Error`, so the recorded
`error` field is `'Unknown error'` and the `isNetworkError` test reduces
to the two message strings); the error is rethrown as-is unless its
message matches a transport string. -/
def catchBlockApi (endpoint : String) (db1 : Idb.DBState) (now : Nat)
    (trackOk : Bool) (e : APIError) (attempts : Nat) (waits : List Nat) : GetResult :=
  if trackOk then
    let db2 := Idb.trackEvent db1 "api_error"
      (.obj [("endpoint", .str endpoint), ("error", .str "Unknown error")]) now
    if isNetworkErrorMessage e.message then
      { result := .error (.api ⟨"Network error. Please check your connection.",
          none, some true⟩), db := db2, attempts := attempts, waits := waits }
    else
      { result := .error (.api e), db := db2, attempts := attempts, waits := waits }
  else
    { result := .error .storage, db := db1, attempts := attempts, waits := waits }

/-- The cache-miss body of `APIClient.get`: run the retry pipeline.  On an
ok response whose body parses, cache the payload and record an `api_call`
event, then return the payload.  On a non-ok response, build the
`APIError` from the parsed body (or `{}` when `response.json()` rejects,
via `.catch(() => ({}))`) and run the catch block on that plain object.
On an ok response whose `response.json()` rejects, the parse `Error`
reaches the catch block (nothing is cached).  On a thrown fetch error
surviving the retry pipeline, the catch block receives it as-is. -/
def getViaNetwork (apiKey endpoint : String) (params : List (String × String))
    (db1 : Idb.DBState) (net : Nat → NetAttempt) (now : Nat)
    (trackOk : Bool) : GetResult :=
  let key := cacheKey apiKey endpoint params
  let fr := fetchWithRetry net 0 3
  match fr.outcome with
  | .resp resp =>
    if resp.respOk then
      let db2 := Idb.cacheAPIResponse db1 key resp.body now 10
      if trackOk then
        let db3 := Idb.trackEvent db2 "api_call"
          (.obj [("endpoint", .str endpoint), ("status", .num resp.status),
                 ("cached", .bool false)]) now
        { result := .ok resp.body, db := db3, attempts := fr.attempts, waits := fr.waits }
      else
        { result := .error .storage, db := db2, attempts := fr.attempts, waits := fr.waits }
    else
      catchBlockApi endpoint db1 now trackOk
        ⟨statusMessage resp.body resp.status, some resp.status, some false⟩
        fr.attempts fr.waits
  | .respBadJson status msg =>
    if 200 ≤ status && status < 300 then
      catchBlockJs endpoint db1 now trackOk ⟨msg, true, false, false⟩
        fr.attempts fr.waits
    else
      catchBlockApi endpoint db1 now trackOk
        ⟨statusMessage (.obj []) status, some status, some false⟩
        fr.attempts fr.waits
  | .err e => catchBlockJs endpoint db1 now trackOk e fr.attempts fr.waits

/-- `APIClient.get(endpoint, params)`: build the expanded query and cache
key, consult `getCachedResponse`, and return the cached payload when it is
truthy (`if (cached) return cached;`); otherwise go to the network. -/
def get (apiKey endpoint : String) (params : List (String × String))
    (db : Idb.DBState) (net : Nat → NetAttempt) (now : Nat)
    (trackOk : Bool) : GetResult :=
  let key := cacheKey apiKey endpoint params
  let lookup := Idb.getCachedResponse db key now
  match lookup.1 with
  | some cached =>
    if cached.truthy then
      { result := .ok cached, db := lookup.2, attempts := 0, waits := [] }
    else
      getViaNetwork apiKey endpoint params lookup.2 net now trackOk
  | none => getViaNetwork apiKey endpoint params lookup.2 net now trackOk

end Api

namespace Pages

/-- `clearAllData` in `Settings.tsx`: it reads the favorites, search
history and analytics stores, then deletes each favorite individually via
`dbHelpers.removeFavorite`.  No other IndexedDB store is written (the
`localStorage.clear()` call affects only the separate localStorage area,
which holds none of the five modelled collections). -/
def clearAllData (db : Idb.DBState) : Idb.DBState :=
  (Idb.getFavorites db).foldl (fun acc fav => Idb.removeFavorite acc fav.id) db

end Pages

/-- One favorites-store operation issued by the UI. -/
inductive FavOp where
  | add : Idb.FavoriteMovie → FavOp
  | remove : Nat → FavOp

/-- Apply one operation; a rejected `add` (IndexedDB `ConstraintError`)
leaves the store unchanged. -/
def applyFavOp (db : Idb.DBState) : FavOp → Idb.DBState
  | .add m =>
    match Idb.addFavorite db m with
    | .ok db2 => db2
    | .error _ => db
  | .remove id => Idb.removeFavorite db id

def applyFavOps (db : Idb.DBState) (ops : List FavOp) : Idb.DBState :=
  ops.foldl applyFavOp db

/-- Number of favorite records carrying the given id. -/
def favCount (db : Idb.DBState) (id : Nat) : Nat :=
  db.favorites.countP (fun f => f.id == id)

/-! ## Helper lemmas -/

theorem countP_filter_le {α : Type} (p q : α → Bool) (l : List α) :
    (l.filter q).countP p ≤ l.countP p := by
  induction l with
  | nil => simp
  | cons a l ih =>
    by_cases hq : q a <;> by_cases hp : p a <;>
      simp [List.filter_cons, List.countP_cons, hq, hp] <;> omega

theorem applyFavOp_preserves_unique (db : Idb.DBState) (op : FavOp)
    (hdb : ∀ j, favCount db j ≤ 1) (i : Nat) :
    favCount (applyFavOp db op) i ≤ 1 := by
  cases op with
  | add m =>
    by_cases hany : db.favorites.any (fun f => f.id == m.id) = true
    · simpa [applyFavOp, Idb.addFavorite, hany] using hdb i
    · have h0 : db.favorites.countP (fun f => f.id == m.id) = 0 := by
        rw [List.countP_eq_zero]
        intro a ha
        by_contra hc
        exact hany (List.any_eq_true.mpr ⟨a, ha, by simpa using hc⟩)
      have hstep : applyFavOp db (.add m) =
          { db with favorites := db.favorites ++ [m] } := by
        simp [applyFavOp, Idb.addFavorite, hany]
      rw [hstep]
      by_cases him : m.id = i
      · subst him
        simp [favCount, List.countP_append, List.countP_cons, h0]
      · have := hdb i
        simp only [favCount] at this ⊢
        simpa [List.countP_append, List.countP_cons, him] using this
  | remove id =>
    have := hdb i
    simp only [favCount] at this ⊢
    calc ((Idb.removeFavorite db id).favorites).countP (fun f => f.id == i)
        ≤ db.favorites.countP (fun f => f.id == i) :=
          countP_filter_le _ _ db.favorites
      _ ≤ 1 := this

theorem applyFavOps_preserves_unique (ops : List FavOp) (db : Idb.DBState)
    (hdb : ∀ j, favCount db j ≤ 1) (i : Nat) :
    favCount (applyFavOps db ops) i ≤ 1 := by
  induction ops generalizing db with
  | nil => exact hdb i
  | cons op ops ih =>
    exact ih (applyFavOp db op) (applyFavOp_preserves_unique db op hdb)

theorem addFavorite_twice_count (db : Idb.DBState) (m : Idb.FavoriteMovie)
    (hm : favCount db m.id = 0) :
    favCount (applyFavOps db [.add m, .add m]) m.id = 1 := by
  simp only [favCount] at hm
  have hany : db.favorites.any (fun f => f.id == m.id) = false := by
    rw [List.any_eq_false]
    intro a ha
    have h := List.countP_eq_zero.mp hm a ha
    simpa using h
  have hstep : applyFavOp db (.add m) =
      { db with favorites := db.favorites ++ [m] } := by
    simp [applyFavOp, Idb.addFavorite, hany]
  have hany2 : (db.favorites ++ [m]).any (fun f => f.id == m.id) = true := by
    simp
  simp only [applyFavOps, List.foldl_cons, List.foldl_nil, hstep]
  have hstep2 : applyFavOp { db with favorites := db.favorites ++ [m] } (.add m) =
      { db with favorites := db.favorites ++ [m] } := by
    simp [applyFavOp, Idb.addFavorite, hany2]
  rw [hstep2]
  simp [favCount, List.countP_append, List.countP_cons, hm]

theorem removeFavorite_foldl (l : List Idb.FavoriteMovie) (db : Idb.DBState) :
    l.foldl (fun acc g => Idb.removeFavorite acc g.id) db =
      { db with favorites := db.favorites.filter (fun f => l.all (fun g => f.id != g.id)) } := by
  induction l generalizing db with
  | nil => simp
  | cons g l ih =>
    simp only [List.foldl_cons]
    rw [ih]
    simp only [Idb.removeFavorite, List.filter_filter]
    congr 1
    apply List.filter_congr
    intro f _
    simp [Bool.and_comm]

/-! ## Claims C6–C10 -/

/-- C6: for every cached entry and read time `now`, `getCachedResponse key`
with `now - storedAt > ttl` deletes the entry from the cache collection and
returns the explicit absent result; with `now - storedAt ≤ ttl` it returns
the stored payload and leaves the store unchanged. -/
theorem getCachedResponse_read_time_expiry (db : Idb.DBState) (key : String)
    (now : Nat) (entry : Idb.CacheEntry)
    (hfind : Idb.findCache db.apiCache key = some entry) :
    (now - entry.timestamp > entry.ttl →
      Idb.getCachedResponse db key now =
        (none, { db with apiCache := db.apiCache.filter (fun c => c.key != key) })) ∧
    (now - entry.timestamp ≤ entry.ttl →
      Idb.getCachedResponse db key now = (some entry.data, db)) := by
  constructor
  · intro h
    simp only [Idb.getCachedResponse, hfind]
    rw [if_pos h]
  · intro h
    simp only [Idb.getCachedResponse, hfind]
    rw [if_neg (by omega)]

/-- Witness for C6 at a concrete store: the entry `⟨"k", "v", 0, 5⟩` read at
time 10 is purged and absent; read at time 5 it is returned and kept. -/
theorem getCachedResponse_read_time_expiry_witness :
    Idb.getCachedResponse ⟨[], [], [⟨"k", .str "v", 0, 5⟩], [], []⟩ "k" 10 =
      (none, ⟨[], [], [], [], []⟩) ∧
    Idb.getCachedResponse ⟨[], [], [⟨"k", .str "v", 0, 5⟩], [], []⟩ "k" 5 =
      (some (.str "v"), ⟨[], [], [⟨"k", .str "v", 0, 5⟩], [], []⟩) := by
  have h10 := getCachedResponse_read_time_expiry
    ⟨[], [], [⟨"k", .str "v", 0, 5⟩], [], []⟩ "k" 10 ⟨"k", .str "v", 0, 5⟩ rfl
  have h5 := getCachedResponse_read_time_expiry
    ⟨[], [], [⟨"k", .str "v", 0, 5⟩], [], []⟩ "k" 5 ⟨"k", .str "v", 0, 5⟩ rfl
  exact ⟨h10.1 (by decide), h5.2 (by decide)⟩

/-- C7: starting from an empty search history, submitting "dune",
"arrival", "dune" at strictly increasing timestamps and listing with limit
2 returns exactly ["dune", "arrival"]: the repeated query was upserted, not
duplicated. -/
theorem searchHistory_dune_arrival_dune (t1 t2 t3 : Nat)
    (h12 : t1 < t2) (h23 : t2 < t3) :
    (Idb.getSearchHistory
      (Idb.addToSearchHistory
        (Idb.addToSearchHistory
          (Idb.addToSearchHistory Idb.DBState.empty "dune" t1) "arrival" t2)
        "dune" t3) 2).map (fun e => e.query) = ["dune", "arrival"] := by
  have h : t2 ≤ t3 := Nat.le_of_lt h23
  simp [Idb.addToSearchHistory, Idb.DBState.empty, Idb.getSearchHistory,
        Idb.sortByTimestampDesc, Idb.insertDesc, h]

/-- Witness for C7 at timestamps 0 < 1 < 2. -/
theorem searchHistory_dune_arrival_dune_witness :
    (Idb.getSearchHistory
      (Idb.addToSearchHistory
        (Idb.addToSearchHistory
          (Idb.addToSearchHistory Idb.DBState.empty "dune" 0) "arrival" 1)
        "dune" 2) 2).map (fun e => e.query) = ["dune", "arrival"] :=
  searchHistory_dune_arrival_dune 0 1 2 (by omega) (by omega)

/-- C8 (code bug): `clearAllData` empties the favorites store by deleting
each favorite individually, but leaves the search-history, api-cache,
preferences and analytics collections exactly as they were — it never
clears them, contrary to the claim (and to the page's own "All app data
has been cleared" message). -/
theorem clearAllData_only_clears_favorites (db : Idb.DBState) :
    (Pages.clearAllData db).favorites = [] ∧
    (Pages.clearAllData db).searchHistory = db.searchHistory ∧
    (Pages.clearAllData db).apiCache = db.apiCache ∧
    (Pages.clearAllData db).preferences = db.preferences ∧
    (Pages.clearAllData db).analytics = db.analytics := by
  unfold Pages.clearAllData Idb.getFavorites
  rw [removeFavorite_foldl]
  refine ⟨?_, rfl, rfl, rfl, rfl⟩
  rw [List.filter_eq_nil_iff]
  intro f hf
  simp only [List.all_eq_true, bne_iff_ne, ne_eq, not_forall]
  exact ⟨f, hf, by simp⟩

/-- C9: from any favorites store holding at most one record per id, any
sequence of add/remove operations keeps at most one record per id, and
adding the same movie twice (the id being fresh) leaves exactly one
record. -/
theorem favorites_unique_invariant (db : Idb.DBState)
    (hdb : ∀ j, favCount db j ≤ 1) (ops : List FavOp) (i : Nat)
    (m : Idb.FavoriteMovie) (hm : favCount db m.id = 0) :
    favCount (applyFavOps db ops) i ≤ 1 ∧
    favCount (applyFavOps db [.add m, .add m]) m.id = 1 :=
  ⟨applyFavOps_preserves_unique ops db hdb i, addFavorite_twice_count db m hm⟩

/-- Witness for C9: from the empty store, adding movie 1, removing 7 and
double-adding movie 1 behave as the invariant states. -/
theorem favorites_unique_invariant_witness :
    favCount (applyFavOps Idb.DBState.empty
      [.add ⟨1, "Dune", "o", "p", "2021", 8, 0⟩, .remove 7]) 1 ≤ 1 ∧
    favCount (applyFavOps Idb.DBState.empty
      [.add ⟨1, "Dune", "o", "p", "2021", 8, 0⟩,
       .add ⟨1, "Dune", "o", "p", "2021", 8, 0⟩]) 1 = 1 :=
  favorites_unique_invariant Idb.DBState.empty
    (by intro j; simp [favCount, Idb.DBState.empty])
    [.add ⟨1, "Dune", "o", "p", "2021", 8, 0⟩, .remove 7] 1
    ⟨1, "Dune", "o", "p", "2021", 8, 0⟩
    (by simp [favCount, Idb.DBState.empty])

/-- C10: `addFavorite` with a movie whose id is already present rejects
with an error and the favorites collection is unchanged by the failed call
(in particular the existing record, `savedAt` included, is untouched). -/
theorem addFavorite_existing_id_rejects (db : Idb.DBState)
    (m : Idb.FavoriteMovie) (h : Idb.isFavorite db m.id = true) :
    Idb.addFavorite db m = .error () ∧ applyFavOp db (.add m) = db := by
  have hany : db.favorites.any (fun f => f.id == m.id) = true := h
  constructor
  · simp [Idb.addFavorite, hany]
  · simp [applyFavOp, Idb.addFavorite, hany]

/-- Witness for C10: re-adding id 1 with a different `savedAt` fails and
keeps the store, original `savedAt` included. -/
theorem addFavorite_existing_id_rejects_witness :
    Idb.addFavorite ⟨[⟨1, "Dune", "o", "p", "2021", 8, 11⟩], [], [], [], []⟩
        ⟨1, "Dune", "o", "p", "2021", 8, 99⟩ = .error () ∧
    applyFavOp ⟨[⟨1, "Dune", "o", "p", "2021", 8, 11⟩], [], [], [], []⟩
        (.add ⟨1, "Dune", "o", "p", "2021", 8, 99⟩) =
      ⟨[⟨1, "Dune", "o", "p", "2021", 8, 11⟩], [], [], [], []⟩ :=
  addFavorite_existing_id_rejects
    ⟨[⟨1, "Dune", "o", "p", "2021", 8, 11⟩], [], [], [], []⟩
    ⟨1, "Dune", "o", "p", "2021", 8, 99⟩ (by decide)

theorem string_append_left_cancel (s t u : String) (h : s ++ t = s ++ u) : t = u := by
  cases s with | mk sd =>
  cases t with | mk td =>
  cases u with | mk ud =>
  have hd : sd ++ td = sd ++ ud := congrArg String.data h
  exact congrArg String.mk (List.append_cancel_left hd)

/-- `fetchWithRetry` always makes at least one attempt. -/
theorem fetchWithRetry_attempts_pos (net : Nat → Api.NetAttempt) :
    ∀ n i, 0 < (Api.fetchWithRetry net i n).attempts := by
  intro n
  induction n with
  | zero =>
    intro i
    simp only [Api.fetchWithRetry]
    split <;> (try split_ifs) <;> simp
  | succ n ih =>
    intro i
    simp only [Api.fetchWithRetry]
    split <;> (try split_ifs) <;> simp

/-- A cache read never touches the analytics store. -/
theorem getCachedResponse_analytics (db : Idb.DBState) (key : String) (now : Nat) :
    ((Idb.getCachedResponse db key now).2).analytics = db.analytics := by
  unfold Idb.getCachedResponse
  split
  · rfl
  · split <;> rfl

/-- A cache write never touches the analytics store. -/
theorem cacheAPIResponse_analytics (db : Idb.DBState) (k : String) (d : Idb.Json)
    (now ttlm : Nat) : (Idb.cacheAPIResponse db k d now ttlm).analytics = db.analytics := by
  unfold Idb.cacheAPIResponse
  split <;> rfl

theorem find?_map_upsert (l : List Idb.CacheEntry) (k : String) (e : Idb.CacheEntry)
    (he : e.key = k) (hl : l.any (fun c => c.key == k) = true) :
    (l.map (fun c => if c.key == k then e else c)).find? (fun c => c.key == k) = some e := by
  induction l with
  | nil => simp at hl
  | cons c l ih =>
    by_cases hc : (c.key == k) = true
    · simp [List.find?, hc, he]
    · have hl' : l.any (fun x => x.key == k) = true := by
        simp only [List.any_cons, Bool.or_eq_true] at hl
        rcases hl with h | h
        · exact absurd h hc
        · exact h
      simpa [List.find?, hc] using ih hl'

theorem find?_append_singleton (l : List Idb.CacheEntry) (k : String) (e : Idb.CacheEntry)
    (he : e.key = k) (hl : l.any (fun c => c.key == k) = false) :
    (l ++ [e]).find? (fun c => c.key == k) = some e := by
  induction l with
  | nil => simp [List.find?, he]
  | cons c l ih =>
    simp only [List.any_cons, Bool.or_eq_false_iff] at hl
    simpa [List.find?, hl.1] using ih hl.2

/-- After `cacheAPIResponse`, the store holds exactly the new entry under
the written key. -/
theorem findCache_cacheAPIResponse (db : Idb.DBState) (k : String) (d : Idb.Json)
    (now ttlm : Nat) :
    Idb.findCache (Idb.cacheAPIResponse db k d now ttlm).apiCache k =
      some ⟨k, d, now, ttlm * 60 * 1000⟩ := by
  by_cases h : db.apiCache.any (fun c => c.key == k) = true
  · simp only [Idb.cacheAPIResponse, Idb.findCache, h, if_true]
    exact find?_map_upsert db.apiCache k _ rfl h
  · have h' : db.apiCache.any (fun c => c.key == k) = false := by
      revert h; cases db.apiCache.any (fun c => c.key == k) <;> simp
    simp only [Idb.cacheAPIResponse, Idb.findCache, h', Bool.false_eq_true, if_false]
    exact find?_append_singleton db.apiCache k _ rfl h'

/-- The retry pipeline under constant 503s: 4 attempts in total, waiting
1s, 2s and 4s before the three retries, and the final response is the
4th attempt's. -/
theorem fetchWithRetry_all_503 (responses : Nat → Api.NetResponse)
    (h0 : (responses 0).status = 503) (h1 : (responses 1).status = 503)
    (h2 : (responses 2).status = 503) :
    Api.fetchWithRetry (Api.netOfResponses responses) 0 3 =
      ⟨.resp (responses 3), 4, [1000, 2000, 4000]⟩ := by
  simp [Api.fetchWithRetry, Api.netOfResponses, h0, h1, h2]

/-! ## Claims C1–C5 -/

/-- C1 (amended): a GET on an empty cache whose every network attempt
returns HTTP 503 makes exactly 4 attempts (1 initial + 3 retries), waiting
1s, 2s and 4s before the 1st/2nd/3rd retry, and fails with the HTTPError
carrying status 503 — provided the final response's `status_message` does
not collide with the transport-error strings, in which case the client
reclassifies it as a network error (attempts and waits unchanged). -/
theorem retry_budget_all_503 (apiKey endpoint : String)
    (params : List (String × String)) (responses : Nat → Api.NetResponse)
    (now : Nat) (hstatus : ∀ i, (responses i).status = 503)
    (hmsg : Api.isNetworkErrorMessage
      (Api.statusMessage (responses 3).body 503) = false) :
    (Api.get apiKey endpoint params Idb.DBState.empty
        (Api.netOfResponses responses) now true).attempts = 4 ∧
    (Api.get apiKey endpoint params Idb.DBState.empty
        (Api.netOfResponses responses) now true).waits = [1000, 2000, 4000] ∧
    (Api.get apiKey endpoint params Idb.DBState.empty
        (Api.netOfResponses responses) now true).result =
      .error (.api ⟨Api.statusMessage (responses 3).body 503, some 503, some false⟩) := by
  have hfr := fetchWithRetry_all_503 responses (hstatus 0) (hstatus 1) (hstatus 2)
  have hok : (responses 3).respOk = false := by
    simp [Api.NetResponse.respOk, hstatus 3]
  simp [Api.get, Api.getViaNetwork, Api.catchBlockApi, Idb.getCachedResponse,
        Idb.findCache, Idb.DBState.empty, hfr, hok, hstatus 3, hmsg]

/-- Witness for C1 with plain 503 responses (empty JSON bodies). -/
theorem retry_budget_all_503_witness :
    (Api.get "k" "/movie/popular" [] Idb.DBState.empty
        (Api.netOfResponses (fun _ => ⟨503, none, .obj []⟩)) 0 true).attempts = 4 ∧
    (Api.get "k" "/movie/popular" [] Idb.DBState.empty
        (Api.netOfResponses (fun _ => ⟨503, none, .obj []⟩)) 0 true).waits =
      [1000, 2000, 4000] ∧
    (Api.get "k" "/movie/popular" [] Idb.DBState.empty
        (Api.netOfResponses (fun _ => ⟨503, none, .obj []⟩)) 0 true).result =
      .error (.api ⟨"HTTP 503", some 503, some false⟩) := by
  have h := retry_budget_all_503 "k" "/movie/popular" []
    (fun _ => ⟨503, none, .obj []⟩) 0 (fun _ => rfl) rfl
  exact ⟨h.1, h.2.1, h.2.2⟩

/-- C1 counterexample: every attempt yields HTTP 503, but the body's
`status_message` is the string "Failed to fetch"; the client still makes 4
attempts with the same waits, yet surfaces a NetworkError with no status
instead of an HTTPError with status 503. -/
theorem retry_budget_all_503_counterexample :
    (Api.get "k" "/m" [] Idb.DBState.empty
        (fun _ => .response ⟨503, none, .obj [("status_message", .str "Failed to fetch")]⟩)
        0 true).result =
      .error (.api ⟨"Network error. Please check your connection.", none, some true⟩) ∧
    (Api.get "k" "/m" [] Idb.DBState.empty
        (fun _ => .response ⟨503, none, .obj [("status_message", .str "Failed to fetch")]⟩)
        0 true).attempts = 4 :=
  ⟨rfl, rfl⟩

/-- C2 (amended): the cache key is `"GET:" ++ endpoint ++ ":"` followed by
the expanded query string in the caller's given parameter order — two
calls to the same endpoint share a cache key exactly when their expanded
query strings (api_key first, then the parameters in insertion order)
coincide; parameter order is not canonicalized. -/
theorem cacheKey_eq_iff_expandedQuery_eq (apiKey endpoint : String)
    (p1 p2 : List (String × String)) :
    Api.cacheKey apiKey endpoint p1 = Api.cacheKey apiKey endpoint p2 ↔
      Api.expandedQuery apiKey p1 = Api.expandedQuery apiKey p2 := by
  constructor
  · intro h
    unfold Api.cacheKey at h
    exact string_append_left_cancel ("GET:" ++ endpoint ++ ":") _ _ (by
      simpa [String.append_assoc] using h)
  · intro h
    unfold Api.cacheKey
    rw [h]

/-- C2 counterexample: the parameter maps {a:1, b:2} and {b:2, a:1} hold
the same (name, value) pairs in different orders, yet `get` computes
different cache keys for them. -/
theorem cacheKey_order_counterexample :
    ([("a", "1"), ("b", "2")] : List (String × String)).Perm
      [("b", "2"), ("a", "1")] ∧
    Api.cacheKey "k" "/e" [("a", "1"), ("b", "2")] ≠
      Api.cacheKey "k" "/e" [("b", "2"), ("a", "1")] :=
  ⟨List.Perm.swap _ _ _, by decide⟩

/-- The catch block passes the attempt count through unchanged. -/
theorem catchBlockJs_attempts (endpoint : String) (db1 : Idb.DBState) (now : Nat)
    (trackOk : Bool) (e : Api.JsError) (a : Nat) (w : List Nat) :
    (Api.catchBlockJs endpoint db1 now trackOk e a w).attempts = a := by
  unfold Api.catchBlockJs
  split_ifs <;> rfl

theorem catchBlockApi_attempts (endpoint : String) (db1 : Idb.DBState) (now : Nat)
    (trackOk : Bool) (e : Api.APIError) (a : Nat) (w : List Nat) :
    (Api.catchBlockApi endpoint db1 now trackOk e a w).attempts = a := by
  unfold Api.catchBlockApi
  split_ifs <;> rfl


/-- The catch block never resolves the call successfully. -/
theorem catchBlockJs_not_ok (endpoint : String) (db1 : Idb.DBState) (now : Nat)
    (trackOk : Bool) (e : Api.JsError) (a : Nat) (w : List Nat) (d : Idb.Json) :
    (Api.catchBlockJs endpoint db1 now trackOk e a w).result ≠ .ok d := by
  unfold Api.catchBlockJs
  split_ifs <;> simp

theorem catchBlockApi_not_ok (endpoint : String) (db1 : Idb.DBState) (now : Nat)
    (trackOk : Bool) (e : Api.APIError) (a : Nat) (w : List Nat) (d : Idb.Json) :
    (Api.catchBlockApi endpoint db1 now trackOk e a w).result ≠ .ok d := by
  unfold Api.catchBlockApi
  split_ifs <;> simp

/-- With the analytics write succeeding, the catch block records exactly
one `api_error` event whose `error` field is
`error instanceof Error ? error.message : 'Unknown error'`. -/
theorem catchBlockJs_analytics (endpoint : String) (db1 : Idb.DBState) (now : Nat)
    (e : Api.JsError) (a : Nat) (w : List Nat) :
    (Api.catchBlockJs endpoint db1 now true e a w).db.analytics =
      db1.analytics ++ [⟨"api_error",
        .obj [("endpoint", .str endpoint),
              ("error", .str (if e.isError then e.message else "Unknown error"))],
        now⟩] := by
  unfold Api.catchBlockJs
  simp only [eq_self_iff_true, if_true]
  split <;> simp [Idb.trackEvent]

/-- The plain thrown `APIError` object is not an `instanceof Error`, so
the recorded `error` field is the literal `'Unknown error'`. -/
theorem catchBlockApi_analytics (endpoint : String) (db1 : Idb.DBState) (now : Nat)
    (e : Api.APIError) (a : Nat) (w : List Nat) :
    (Api.catchBlockApi endpoint db1 now true e a w).db.analytics =
      db1.analytics ++ [⟨"api_error",
        .obj [("endpoint", .str endpoint), ("error", .str "Unknown error")], now⟩] := by
  unfold Api.catchBlockApi
  simp only [eq_self_iff_true, if_true]
  split <;> simp [Idb.trackEvent]

/-- A cache-miss `get` always performs at least one network attempt. -/
theorem getViaNetwork_attempts_ne_zero (apiKey endpoint : String)
    (params : List (String × String)) (db1 : Idb.DBState)
    (net : Nat → Api.NetAttempt) (now : Nat) (trackOk : Bool) :
    (Api.getViaNetwork apiKey endpoint params db1 net now trackOk).attempts ≠ 0 := by
  have hne : (Api.fetchWithRetry net 0 3).attempts ≠ 0 :=
    Nat.pos_iff_ne_zero.mp (fetchWithRetry_attempts_pos net 3 0)
  simp only [Api.getViaNetwork]
  rcases hO : (Api.fetchWithRetry net 0 3).outcome with r | ⟨st, msg⟩ | e
  · dsimp only
    by_cases hok : r.respOk = true
    · rw [if_pos hok]
      split_ifs <;> exact hne
    · rw [if_neg hok]
      simpa [catchBlockApi_attempts] using hne
  · dsimp only
    split
    · simpa [catchBlockJs_attempts] using hne
    · simpa [catchBlockApi_attempts] using hne
  · dsimp only
    simpa [catchBlockJs_attempts] using hne

/-- A cache-miss `get` that succeeded left its payload in the cache under
the call's key, stamped at `now` with the 10-minute (600000 ms) TTL. -/
theorem getViaNetwork_ok_cache (apiKey endpoint : String)
    (params : List (String × String)) (db1 : Idb.DBState)
    (net : Nat → Api.NetAttempt) (now : Nat) (data : Idb.Json)
    (h1 : (Api.getViaNetwork apiKey endpoint params db1 net now true).result =
      .ok data) :
    Idb.findCache
        (Api.getViaNetwork apiKey endpoint params db1 net now true).db.apiCache
        (Api.cacheKey apiKey endpoint params) =
      some ⟨Api.cacheKey apiKey endpoint params, data, now, 600000⟩ := by
  simp only [Api.getViaNetwork] at h1 ⊢
  rcases hO : (Api.fetchWithRetry net 0 3).outcome with r | ⟨st, msg⟩ | e
  all_goals rw [hO] at h1
  · dsimp only at h1 ⊢
    by_cases hok : r.respOk = true
    · rw [if_pos hok] at h1 ⊢
      simp only [if_true] at h1 ⊢
      have hbody : r.body = data := by
        simpa using h1
      simp only [Idb.trackEvent]
      rw [hbody]
      have h600 : (600000 : Nat) = 10 * 60 * 1000 := by norm_num
      rw [h600]
      exact findCache_cacheAPIResponse db1 (Api.cacheKey apiKey endpoint params) data now 10
    · rw [if_neg hok] at h1
      exact absurd h1 (catchBlockApi_not_ok _ _ _ _ _ _ _ _)
  · dsimp only at h1
    split at h1
    · exact absurd h1 (catchBlockJs_not_ok _ _ _ _ _ _ _ _)
    · exact absurd h1 (catchBlockApi_not_ok _ _ _ _ _ _ _ _)
  · dsimp only at h1
    exact absurd h1 (catchBlockJs_not_ok _ _ _ _ _ _ _ _)

/-- A `get` that succeeded after at least one network attempt left its
payload in the cache under the call's key with the 10-minute TTL. -/
theorem get_ok_network (apiKey endpoint : String) (params : List (String × String))
    (db : Idb.DBState) (net : Nat → Api.NetAttempt) (now : Nat)
    (data : Idb.Json)
    (h1 : (Api.get apiKey endpoint params db net now true).result = .ok data)
    (hnet : (Api.get apiKey endpoint params db net now true).attempts ≠ 0) :
    Idb.findCache (Api.get apiKey endpoint params db net now true).db.apiCache
        (Api.cacheKey apiKey endpoint params) =
      some ⟨Api.cacheKey apiKey endpoint params, data, now, 600000⟩ := by
  simp only [Api.get] at h1 hnet ⊢
  rcases hE : Idb.getCachedResponse db (Api.cacheKey apiKey endpoint params) now
    with ⟨copt, db1⟩
  rw [hE] at h1 hnet
  cases copt with
  | some c =>
    dsimp only at h1 hnet ⊢
    by_cases ht : c.truthy = true
    · rw [if_pos ht] at hnet
      exact absurd rfl hnet
    · rw [if_neg ht] at h1 ⊢
      exact getViaNetwork_ok_cache apiKey endpoint params db1 net now data h1
  | none =>
    dsimp only at h1 ⊢
    exact getViaNetwork_ok_cache apiKey endpoint params db1 net now data h1

/-- C3 (amended): if a first `get` succeeds via the network (at least one
attempt made) with a truthy payload, then a second `get` with the same
endpoint and params issued within the 10-minute TTL returns the identical
payload and performs zero network attempts. -/
theorem cache_idempotence (apiKey endpoint : String)
    (params : List (String × String)) (db : Idb.DBState)
    (net net2 : Nat → Api.NetAttempt) (now now2 : Nat)
    (trackOk2 : Bool) (data : Idb.Json)
    (h1 : (Api.get apiKey endpoint params db net now true).result = .ok data)
    (hnet : (Api.get apiKey endpoint params db net now true).attempts ≠ 0)
    (htruthy : data.truthy = true) (httl : now2 - now ≤ 600000) :
    (Api.get apiKey endpoint params
        (Api.get apiKey endpoint params db net now true).db
        net2 now2 trackOk2).result = .ok data ∧
    (Api.get apiKey endpoint params
        (Api.get apiKey endpoint params db net now true).db
        net2 now2 trackOk2).attempts = 0 := by
  have hfind := get_ok_network apiKey endpoint params db net now data h1 hnet
  set G := Api.get apiKey endpoint params db net now true with hG
  have hcr : Idb.getCachedResponse G.db (Api.cacheKey apiKey endpoint params) now2 =
      (some data, G.db) := by
    simp only [Idb.getCachedResponse, hfind]
    rw [if_neg (by simp; omega)]
  simp only [Api.get]
  rw [hcr]
  dsimp only
  rw [if_pos htruthy]
  exact ⟨rfl, rfl⟩

/-- Witness for C3: a successful GET of `/m` at time 0 followed by the same
call at time 600000 (the TTL boundary) returns the same payload from the
cache with zero attempts. -/
theorem cache_idempotence_witness :
    (Api.get "k" "/m" []
        (Api.get "k" "/m" [] Idb.DBState.empty
          (fun _ => .response ⟨200, none, .obj [("page", .num 1)]⟩) 0 true).db
        (fun _ => .response ⟨200, none, .obj [("page", .num 1)]⟩) 600000 true).result =
      .ok (.obj [("page", .num 1)]) ∧
    (Api.get "k" "/m" []
        (Api.get "k" "/m" [] Idb.DBState.empty
          (fun _ => .response ⟨200, none, .obj [("page", .num 1)]⟩) 0 true).db
        (fun _ => .response ⟨200, none, .obj [("page", .num 1)]⟩) 600000 true).attempts = 0 :=
  cache_idempotence "k" "/m" [] Idb.DBState.empty
    (fun _ => .response ⟨200, none, .obj [("page", .num 1)]⟩)
    (fun _ => .response ⟨200, none, .obj [("page", .num 1)]⟩) 0 600000 true
    (.obj [("page", .num 1)]) rfl (by decide) rfl (by omega)

/-- C3 counterexample: a successful GET whose JSON payload is the falsy
value `false` is cached, but the second call within the TTL misses — the
cache-hit test `if (cached)` is a truthiness test — and performs one
network attempt instead of zero. -/
theorem cache_idempotence_counterexample :
    (Api.get "k" "/m" [] Idb.DBState.empty
        (fun _ => .response ⟨200, none, .bool false⟩) 0 true).result =
      .ok (.bool false) ∧
    (Api.get "k" "/m" []
        (Api.get "k" "/m" [] Idb.DBState.empty
          (fun _ => .response ⟨200, none, .bool false⟩) 0 true).db
        (fun _ => .response ⟨200, none, .bool false⟩) 1 true).attempts = 1 :=
  ⟨rfl, rfl⟩

/-- A cache-miss `get` with the analytics write succeeding appends exactly
one usage event: an `api_call` with the endpoint and the final status on
success, or an `api_error` with the endpoint and a message — the thrown
error's own message for `instanceof Error` failures (timeout, transport,
JSON parse), `'Unknown error'` for the client's thrown plain `APIError`
object. -/
theorem getViaNetwork_usage_event (apiKey endpoint : String)
    (params : List (String × String)) (db1 : Idb.DBState)
    (net : Nat → Api.NetAttempt) (now : Nat) :
    ∃ ev : Idb.AnalyticsEvent,
      (Api.getViaNetwork apiKey endpoint params db1 net now true).db.analytics =
        db1.analytics ++ [ev] ∧
      ((ev.action = "api_call" ∧ ∃ s : Nat, ev.data = .obj
          [("endpoint", .str endpoint), ("status", .num s),
           ("cached", .bool false)]) ∨
       (ev.action = "api_error" ∧ ∃ m : String, ev.data = .obj
          [("endpoint", .str endpoint), ("error", .str m)])) := by
  simp only [Api.getViaNetwork]
  rcases hO : (Api.fetchWithRetry net 0 3).outcome with r | ⟨st, msg⟩ | e
  · dsimp only
    by_cases hok : r.respOk = true
    · rw [if_pos hok]
      simp only [eq_self_iff_true, if_true]
      refine ⟨⟨"api_call", .obj [("endpoint", .str endpoint),
          ("status", .num (r.status : Int)), ("cached", .bool false)], now⟩, ?_,
        Or.inl ⟨rfl, r.status, rfl⟩⟩
      simp [Idb.trackEvent, cacheAPIResponse_analytics]
    · rw [if_neg hok]
      exact ⟨⟨"api_error", .obj [("endpoint", .str endpoint),
          ("error", .str "Unknown error")], now⟩,
        catchBlockApi_analytics _ _ _ _ _ _, Or.inr ⟨rfl, "Unknown error", rfl⟩⟩
  · dsimp only
    split
    · refine ⟨⟨"api_error", .obj [("endpoint", .str endpoint), ("error", .str msg)], now⟩,
        ?_, Or.inr ⟨rfl, msg, rfl⟩⟩
      simpa using catchBlockJs_analytics endpoint db1 now ⟨msg, true, false, false⟩
        (Api.fetchWithRetry net 0 3).attempts (Api.fetchWithRetry net 0 3).waits
    · refine ⟨⟨"api_error", .obj [("endpoint", .str endpoint),
          ("error", .str "Unknown error")], now⟩,
        ?_, Or.inr ⟨rfl, "Unknown error", rfl⟩⟩
      exact catchBlockApi_analytics _ _ _ _ _ _
  · dsimp only
    refine ⟨⟨"api_error", .obj [("endpoint", .str endpoint),
        ("error", .str (if e.isError then e.message else "Unknown error"))], now⟩,
      ?_, Or.inr ⟨rfl, if e.isError then e.message else "Unknown error", rfl⟩⟩
    exact catchBlockJs_analytics _ _ _ _ _ _

/-- C4 (amended): a cache-hit `get` (zero attempts) records no usage
event; a `get` that reaches the network (analytics writes succeeding)
appends exactly one event — `api_call` with the endpoint and a status on
success, or `api_error` with the endpoint and a message on failure. -/
theorem get_usage_events (apiKey endpoint : String)
    (params : List (String × String)) (db : Idb.DBState)
    (net : Nat → Api.NetAttempt) (now : Nat) :
    ((Api.get apiKey endpoint params db net now true).attempts = 0 →
      (Api.get apiKey endpoint params db net now true).db.analytics =
        db.analytics) ∧
    ((Api.get apiKey endpoint params db net now true).attempts ≠ 0 →
      ∃ ev : Idb.AnalyticsEvent,
        (Api.get apiKey endpoint params db net now true).db.analytics =
          db.analytics ++ [ev] ∧
        ((ev.action = "api_call" ∧ ∃ s : Nat, ev.data = .obj
            [("endpoint", .str endpoint), ("status", .num s),
             ("cached", .bool false)]) ∨
         (ev.action = "api_error" ∧ ∃ m : String, ev.data = .obj
            [("endpoint", .str endpoint), ("error", .str m)]))) := by
  simp only [Api.get]
  have hdb1 := getCachedResponse_analytics db (Api.cacheKey apiKey endpoint params) now
  rcases hE : Idb.getCachedResponse db (Api.cacheKey apiKey endpoint params) now
    with ⟨copt, db1⟩
  rw [hE] at hdb1
  cases copt with
  | some c =>
    dsimp only at hdb1 ⊢
    by_cases ht : c.truthy = true
    · rw [if_pos ht]
      exact ⟨fun _ => hdb1, fun h => absurd rfl h⟩
    · rw [if_neg ht]
      refine ⟨fun h0 =>
        absurd h0 (getViaNetwork_attempts_ne_zero apiKey endpoint params db1 net now true),
        fun _ => ?_⟩
      obtain ⟨ev, hev, hcase⟩ :=
        getViaNetwork_usage_event apiKey endpoint params db1 net now
      exact ⟨ev, by rw [hev, hdb1], hcase⟩
  | none =>
    dsimp only at hdb1 ⊢
    refine ⟨fun h0 =>
      absurd h0 (getViaNetwork_attempts_ne_zero apiKey endpoint params db1 net now true),
      fun _ => ?_⟩
    obtain ⟨ev, hev, hcase⟩ :=
      getViaNetwork_usage_event apiKey endpoint params db1 net now
    exact ⟨ev, by rw [hev, hdb1], hcase⟩

/-- Witness for C4: a cache-miss GET of `/m` with a 200 response appends
exactly one usage event. -/
theorem get_usage_events_witness :
    ∃ ev : Idb.AnalyticsEvent,
      (Api.get "k" "/m" [] Idb.DBState.empty
          (fun _ => .response ⟨200, none, .obj [("page", .num 1)]⟩)
          0 true).db.analytics =
        Idb.DBState.empty.analytics ++ [ev] ∧
      ((ev.action = "api_call" ∧ ∃ s : Nat, ev.data = .obj
          [("endpoint", .str "/m"), ("status", .num s), ("cached", .bool false)]) ∨
       (ev.action = "api_error" ∧ ∃ m : String, ev.data = .obj
          [("endpoint", .str "/m"), ("error", .str m)])) :=
  (get_usage_events "k" "/m" [] Idb.DBState.empty
    (fun _ => .response ⟨200, none, .obj [("page", .num 1)]⟩) 0).2 (by decide)

/-- C4 counterexample: a `get` answered from the cache returns the stored
payload but records no usage event at all — the analytics store stays
empty, refuting "every call records exactly one usage event". -/
theorem get_usage_events_counterexample :
    (Api.get "k" "/m" []
        ⟨[], [], [⟨Api.cacheKey "k" "/m" [], .str "v", 0, 600000⟩], [], []⟩
        (fun _ => .response ⟨200, none, .obj []⟩) 5 true).result = .ok (.str "v") ∧
    (Api.get "k" "/m" []
        ⟨[], [], [⟨Api.cacheKey "k" "/m" [], .str "v", 0, 600000⟩], [], []⟩
        (fun _ => .response ⟨200, none, .obj []⟩) 5 true).db.analytics = [] :=
  ⟨rfl, rfl⟩

/-- C5 (code bug): with the fetch succeeding and the cache write
succeeding but the analytics `add` rejecting, `get` rejects with the
storage error instead of returning the payload — the awaited
`trackEvent('api_call')` sits on the primary path and its rejection
propagates (the catch block's own `trackEvent('api_error')` rejects too).
The second conjunct shows the payload had in fact been fetched and cached. -/
theorem get_rejects_on_tracking_failure :
    (Api.get "k" "/m" [] Idb.DBState.empty
        (fun _ => .response ⟨200, none, .obj [("page", .num 1)]⟩) 0 false).result =
      .error .storage ∧
    (Idb.findCache
        (Api.get "k" "/m" [] Idb.DBState.empty
          (fun _ => .response ⟨200, none, .obj [("page", .num 1)]⟩) 0 false).db.apiCache
        (Api.cacheKey "k" "/m" [])).isSome = true :=
  ⟨rfl, rfl⟩
